import Mathlib

/-!
Verification of the Brightspace-GPT authentication subsystem.

Shallow embedding of the code in `backend/app/services/auth_service.py`,
`backend/app/api/auth.py` and `backend/app/models/user.py`.  Database rows are
modelled as Lean structures, the SQLAlchemy session as explicit state passing,
timestamps as natural numbers (seconds), and the outcomes of outbound network
calls (token exchange, refresh, identity fetch) as oracle parameters, so that
every function is executable and deterministic.
-/

namespace BrightspaceGPT

/-- Row of the `users` table (`app/models/user.py`, class `User`).
`id` has a Python-side column default (`uuid4`), so a freshly constructed ORM
object has `id = none` until the session flushes; the committed row carries
`some id`.  Fields not touched by the auth subsystem (student number, locale,
preferences, created/updated timestamps) are omitted. -/
structure UserRow where
  id : Option String
  email : Option String
  full_name : String
  brightspace_user_id : Option String
  is_verified : Bool
  last_login_at : Option Nat
deriving Repr, DecidableEq

/-- Row of the `brightspace_tokens` table (`app/models/user.py`, class
`BrightspaceToken`).  The `user_id` column is declared `nullable=False`; we keep
it as `Option String` because the ORM object is constructed from whatever value
the caller passes, and the NOT NULL constraint is only enforced at flush
(see `commitDb`). -/
structure TokenRow where
  id : Option String
  user_id : Option String
  access_token : String
  refresh_token : Option String
  token_type : String
  scope : Option String
  expires_at : Option Nat
  updated_at : Option Nat
deriving Repr, DecidableEq

/-- Method `BrightspaceToken.is_expired` (`app/models/user.py` lines 64-68):
no expiry recorded means never expired; otherwise expired iff
`datetime.now() >= expires_at`. -/
def is_expired (t : TokenRow) (now : Nat) : Bool :=
  match t.expires_at with
  | none => false
  | some e => e ≤ now

/-- The relational store restricted to the two tables the auth subsystem
touches. -/
structure Db where
  users : List UserRow
  tokens : List TokenRow
deriving Repr, DecidableEq

/-- OAuth token-endpoint response body (`ProviderTokenResponse` in spec §4.3;
the dict returned by `exchange_code_for_tokens` / `refresh_access_token`).
`access_token` is mandatory per the OAuth2 token response contract; the other
fields are read with `.get` in the source and may be absent. -/
structure TokenData where
  access_token : String
  refresh_token : Option String
  token_type : Option String
  scope : Option String
  expires_in : Option Nat
deriving Repr, DecidableEq

/-- Brightspace `whoami` response as read by `create_or_update_user`
(`Identifier`, `EmailAddress`, `FirstName`, `LastName`; the last two are read
with default `''`). -/
structure WhoAmI where
  identifier : Option String
  emailAddress : Option String
  firstName : String
  lastName : String
deriving Repr, DecidableEq

/-- Python exceptions that cross the boundaries we model. -/
inductive PyExn where
  | integrityError
  | authenticationError
deriving Repr, DecidableEq

/-- Replace the first element satisfying `p` (the row returned by
`scalar_one_or_none`, mutated in place by the ORM). -/
def updateFirst (p : α → Bool) (f : α → α) : List α → List α
  | [] => []
  | x :: xs => if p x then f x :: xs else x :: updateFirst p f xs

/-- Model of `AuthService._save_brightspace_tokens` (`auth_service.py` lines 209-246).
Looks up the token row whose `user_id` equals the argument (SQLAlchemy renders
`== None` as `IS NULL`, hence plain `Option` equality), computes the absolute
expiry from `expires_in`, and either updates the row in place or adds a new
pending row (`id = none` until flush). -/
def save_brightspace_tokens (db : Db) (user_id : Option String) (td : TokenData) (now : Nat) : Db :=
  let expires_at : Option Nat := td.expires_in.map (fun s => now + s)
  let upd : TokenRow → TokenRow := fun t =>
    { t with
      access_token := td.access_token,
      refresh_token := td.refresh_token,
      token_type := td.token_type.getD "Bearer",
      scope := td.scope,
      expires_at := expires_at,
      updated_at := some now }
  let fresh : TokenRow :=
    { id := none,
      user_id := user_id,
      access_token := td.access_token,
      refresh_token := td.refresh_token,
      token_type := td.token_type.getD "Bearer",
      scope := td.scope,
      expires_at := expires_at,
      updated_at := none }
  match db.tokens.find? (fun t => t.user_id = user_id) with
  | some _ => { db with tokens := updateFirst (fun t => t.user_id = user_id) upd db.tokens }
  | none => { db with tokens := db.tokens ++ [fresh] }

/-- Commit (`db.commit()`): flush assigns the Python-side `uuid4` defaults to pending
rows and the database enforces the NOT NULL constraints
(`users.email` and `brightspace_tokens.user_id` are `nullable=False`);
a violation raises `IntegrityError` and the transaction is rolled back. -/
def commitDb (db : Db) (freshUid freshTid : String) : Except PyExn Db :=
  if db.tokens.any (fun t => t.user_id = none) then .error .integrityError
  else if db.users.any (fun u => u.email = none) then .error .integrityError
  else
    let us := db.users.map (fun u => if u.id = none then { u with id := some freshUid } else u)
    let ts := db.tokens.map (fun t => if t.id = none then { t with id := some freshTid } else t)
    .ok { users := us, tokens := ts }

/-- Python falsiness of an optional string (`a or b` keeps `b` when `a` is
`None` or `''`). -/
def pyOr (a : Option String) (b : Option String) : Option String :=
  match a with
  | none => b
  | some s => if s = "" then b else some s

/-- Conversion `str(info.get("Identifier"))`: a missing key yields the string `"None"`. -/
def pyStrOfOpt (a : Option String) : String :=
  match a with
  | none => "None"
  | some s => s

/-- Session state of `AuthService.create_or_update_user` just before
`db.commit()` (`auth_service.py` lines 158-205): the user row looked up by
`brightspace_user_id` is updated in place, or a new ORM object (with `id`
still unset, i.e. `none`) is added; then `_save_brightspace_tokens` is called
with the value `user.id` has at that moment. -/
def create_or_update_user_session (db : Db) (info : WhoAmI) (td : TokenData) (now : Nat) : Db :=
  let bsid := pyStrOfOpt info.identifier
  let full_name := (info.firstName ++ " " ++ info.lastName).trim
  match db.users.find? (fun u => u.brightspace_user_id = some bsid) with
  | some u =>
      let u' : UserRow :=
        { u with
          email := pyOr info.emailAddress u.email,
          full_name := if full_name = "" then u.full_name else full_name,
          last_login_at := some now }
      let db1 : Db :=
        { db with
          users := updateFirst (fun x => x.brightspace_user_id = some bsid) (fun _ => u') db.users }
      save_brightspace_tokens db1 u'.id td now
  | none =>
      let newU : UserRow :=
        { id := none,
          email := info.emailAddress,
          full_name := full_name,
          brightspace_user_id := some bsid,
          is_verified := true,
          last_login_at := some now }
      let db1 : Db := { db with users := db.users ++ [newU] }
      save_brightspace_tokens db1 newU.id td now

/-- Model of `AuthService.create_or_update_user` (`auth_service.py` lines 158-207):
build the session state, commit, and return the committed user row together
with the new database state.  A failed commit (IntegrityError) propagates and
the transaction is rolled back, leaving the store unchanged. -/
def create_or_update_user (db : Db) (info : WhoAmI) (td : TokenData) (now : Nat)
    (freshUid freshTid : String) : Except PyExn (Db × UserRow) :=
  let bsid := pyStrOfOpt info.identifier
  match commitDb (create_or_update_user_session db info td now) freshUid freshTid with
  | .error e => .error e
  | .ok dbc =>
      match dbc.users.find? (fun u => u.brightspace_user_id = some bsid) with
      | some u => .ok (dbc, u)
      | none => .error .integrityError

/-- Model of `AuthService.refresh_access_token` (`auth_service.py` lines 93-125): the
outcome of the outbound refresh POST is an oracle; every transport or HTTP
failure is re-raised as `AuthenticationError`. -/
def refresh_access_token (providerResp : Option TokenData) : Except PyExn TokenData :=
  match providerResp with
  | some td => .ok td
  | none => .error .authenticationError

/-- Model of `AuthService.get_valid_brightspace_token` (`auth_service.py` lines
248-282).  Returns `(result, new store, number of refresh calls made)`.
`providerResp` is the oracle for the single possible refresh call; the
`except AuthenticationError` handler swallows refresh failures into `none`. -/
def get_valid_brightspace_token (db : Db) (user_id : Option String) (now : Nat)
    (providerResp : Option TokenData) : Option String × Db × Nat :=
  match db.tokens.find? (fun t => t.user_id = user_id) with
  | none => (none, db, 0)
  | some t =>
      if is_expired t now ∧ t.refresh_token.isSome then
        match refresh_access_token providerResp with
        | .error _ => (none, db, 1)
        | .ok td =>
            let db' := save_brightspace_tokens db user_id td now
            (some td.access_token, db', 1)
      else if ¬ is_expired t now then
        (some t.access_token, db, 0)
      else
        (none, db, 0)

/-! ### Application settings (`app/core/config.py`) -/

/-- The settings fields consumed by the auth subsystem.
`BRIGHTSPACE_OAUTH_SCOPE` is not declared in `Settings` but the class allows
extra fields from the environment, and `AuthService.__init__` reads it, so it
is included here. -/
structure AppSettings where
  appUrl : String
  jwtSecret : String
  jwtExpirationHours : Nat
  apiUrl : String
  clientId : String
  clientSecret : String
  redirectUri : String
  oauthScope : String
deriving Repr, DecidableEq

/-- The defaults from `app/core/config.py` (scope supplied by environment). -/
def defaultSettings : AppSettings :=
  { appUrl := "http://localhost:3000",
    jwtSecret := "dev_secret_key",
    jwtExpirationHours := 24,
    apiUrl := "https://uottawa.brightspace.com/d2l/api",
    clientId := "",
    clientSecret := "",
    redirectUri := "http://localhost:8001/api/auth/brightspace/callback",
    oauthScope := "" }

/-! ### Session tokens (`auth_service.py` lines 284-320)

The `python-jose` JWT library is an external collaborator; it is modelled
symbolically.  A signature is the term `hmacSign secret payload`, standing for
the HMAC of the serialized payload under the secret: two signatures are equal
exactly when secret and signed payload agree (collision freedom of the MAC).
`jwt.decode` verifies the signature against the given secret and validates
`exp` (expiry must be strictly in the future, spec §4.7); any failure — bad
signature, malformed encoding, expired — raises `JWTError`.  Because in the
serialized form `header.payload.signature` the payload bytes and the signature
bytes are disjoint, a single-byte mutation of a valid token changes the
payload, or the signature, or breaks the encoding; these are the three
mutation cases of the model. -/

/-- Claims of the application session token, as built by `create_jwt_token`. -/
structure SessionClaims where
  sub : Option String
  email : Option String
  brightspace_user_id : Option String
  exp : Nat
  iat : Nat
deriving Repr, DecidableEq

/-- Symbolic HMAC signature: records the secret and the payload it signs. -/
structure JwtSig where
  secret : String
  signedPayload : SessionClaims
deriving Repr, DecidableEq

/-- Compute the (symbolic) signature of a payload under a secret. -/
def hmacSign (secret : String) (c : SessionClaims) : JwtSig := ⟨secret, c⟩

/-- An encoded token: either a structurally well-formed `payload.signature`
pair or a byte string that does not decode. -/
inductive Jwt where
  | signed (payload : SessionClaims) (sig : JwtSig)
  | malformed (raw : String)
deriving Repr, DecidableEq

/-- The payload component of a well-formed token. -/
def jwtPayload : Jwt → Option SessionClaims
  | .signed c _ => some c
  | .malformed _ => none

/-- Model of `jose.jwt.decode` with signature and expiry validation (external library,
see the section comment): returns the claims, or raises `JWTError` (modelled
as `none`) on bad signature, malformed token, or expiry not strictly in the
future. -/
def jose_decode (secret : String) (now : Nat) : Jwt → Option SessionClaims
  | .malformed _ => none
  | .signed c sig => if sig = hmacSign secret c ∧ now < c.exp then some c else none

/-- Model of `AuthService.create_jwt_token` (`auth_service.py` lines 284-304):
claims carry the user id as subject, email, provider id, issued-at `now` and
expiry `now` plus the configured lifetime; signed with the server secret. -/
def create_jwt_token (st : AppSettings) (user : UserRow) (now : Nat) : Jwt :=
  let claims : SessionClaims :=
    { sub := user.id,
      email := user.email,
      brightspace_user_id := user.brightspace_user_id,
      exp := now + 3600 * st.jwtExpirationHours,
      iat := now }
  .signed claims (hmacSign st.jwtSecret claims)

/-- Model of `AuthService.verify_jwt_token` (`auth_service.py` lines 306-320):
decode under the server secret; every `JWTError` is caught and collapsed to
`None`, with no distinction of cause. -/
def verify_jwt_token (st : AppSettings) (now : Nat) (t : Jwt) : Option SessionClaims :=
  jose_decode st.jwtSecret now t

/-- Model of `AuthService.get_user_by_id` (`auth_service.py` lines 322-326). -/
def get_user_by_id (db : Db) (user_id : Option String) : Option UserRow :=
  db.users.find? (fun u => u.id = user_id)

/-! ### API endpoints (`app/api/auth.py`) -/

/-- The `Authorization` header of a request, as the endpoints dissect it:
absent, not of the form `Bearer <token>`, or carrying a bearer token. -/
inductive AuthHeader where
  | missing
  | notBearer (raw : String)
  | bearer (tok : Jwt)
deriving Repr, DecidableEq

/-- Outcome of running a request handler: a normal value, or an unhandled
Python exception (which FastAPI turns into an HTTP 500 response). -/
inductive PyOutcome (α : Type) where
  | ok (a : α)
  | exn (pyName : String)
deriving Repr, DecidableEq

/-- Redirect targets the callback endpoint sends the browser to. -/
inductive FrontendTarget where
  | loginError (code : String)
  | dashboard (tok : Jwt)
deriving Repr, DecidableEq

/-- The module-global name `settings` as resolved inside `app/api/auth.py`:
the module never imports it (its import list is `fastapi`, `sqlalchemy`,
`typing`, `logging`, `app.core.database`, `app.services.auth_service`,
`app.schemas.auth`, `app.utils.exceptions`), so the name is unbound and every
reference to it raises `NameError`. -/
def apiAuthSettings : Option AppSettings := none

/-- Build the frontend redirect `f"{settings.APP_URL}..."`
(`app/api/auth.py` lines 66, 72, 78, 100, 105, 109): evaluating the f-string
resolves the module-global `settings`, hence raises `NameError` when it is
unbound. -/
def frontendRedirect (target : FrontendTarget) : PyOutcome (String × FrontendTarget) :=
  match apiAuthSettings with
  | none => .exn "NameError"
  | some st => .ok (st.appUrl, target)

/-- Query parameters of a callback request. -/
structure CallbackRequest where
  code : Option String
  state : Option String
  error : Option String
deriving Repr, DecidableEq

/-- Result of the callback endpoint: the HTTP outcome, the state cache and
database afterwards, and whether the code-for-token exchange was invoked. -/
structure CallbackResult where
  response : PyOutcome (String × FrontendTarget)
  states : List String
  db : Db
  exchangeCalled : Bool
deriving Repr, DecidableEq

/-- Model of `brightspace_callback` (`app/api/auth.py` lines 46-110).
`oauth_states` is the in-memory state dict (modelled as the list of registered
states); `exchangeResp` and `whoamiResp` are the oracles for the two outbound
calls (`none` = the call raised `AuthenticationError`).  Control flow follows
the source: provider `error` short-circuits, then missing parameters, then the
CSRF state check, then the try block whose `except AuthenticationError`
branch redirects with `auth_failed` and whose `except Exception` branch
redirects with `server_error`; the state is popped only after the JWT is
minted.  An exception raised inside an `except` handler (here: the `NameError`
from `frontendRedirect`) propagates. -/
def brightspace_callback (st : AppSettings) (req : CallbackRequest)
    (oauth_states : List String) (db : Db)
    (exchangeResp : Option TokenData) (whoamiResp : Option WhoAmI)
    (now : Nat) (freshUid freshTid : String) : CallbackResult :=
  match req.error with
  | some e => ⟨frontendRedirect (.loginError e), oauth_states, db, false⟩
  | none =>
    match req.code, req.state with
    | none, _ => ⟨frontendRedirect (.loginError "missing_parameters"), oauth_states, db, false⟩
    | some _, none => ⟨frontendRedirect (.loginError "missing_parameters"), oauth_states, db, false⟩
    | some _, some state =>
      if state ∉ oauth_states then
        ⟨frontendRedirect (.loginError "invalid_state"), oauth_states, db, false⟩
      else
        match exchangeResp with
        | none => ⟨frontendRedirect (.loginError "auth_failed"), oauth_states, db, true⟩
        | some td =>
          match whoamiResp with
          | none => ⟨frontendRedirect (.loginError "auth_failed"), oauth_states, db, true⟩
          | some info =>
            match create_or_update_user db info td now freshUid freshTid with
            | .error _ => ⟨frontendRedirect (.loginError "server_error"), oauth_states, db, true⟩
            | .ok (db', user) =>
              let jwtTok := create_jwt_token st user now
              let states' := oauth_states.erase state
              let resp :=
                match frontendRedirect (.dashboard jwtTok) with
                | .ok r => PyOutcome.ok r
                | .exn _ => frontendRedirect (.loginError "server_error")
              ⟨resp, states', db', true⟩

/-- Result of an endpoint that either returns a body or raises
`HTTPException(status, detail)`. -/
inductive RouteResult (α : Type) where
  | ok (a : α)
  | httpError (status : Nat) (detail : String)
deriving Repr, DecidableEq

/-- The `UserResponse` schema fields relevant to the auth subsystem
(preferences and created-at are pass-through columns, omitted). -/
structure UserPayload where
  id : Option String
  email : Option String
  full_name : String
  brightspace_user_id : Option String
  is_verified : Bool
deriving Repr, DecidableEq

/-- Build a `UserResponse` from a user row. -/
def userResponseOf (u : UserRow) : UserPayload :=
  { id := u.id,
    email := u.email,
    full_name := u.full_name,
    brightspace_user_id := u.brightspace_user_id,
    is_verified := u.is_verified }

/-- The `LoginResponse` schema: the new session token, its type, and the user
payload. -/
structure LoginResponseBody where
  access_token : Jwt
  token_type : String
  user : UserPayload
deriving Repr, DecidableEq

/-- Endpoint `refresh_token` (`app/api/auth.py` lines 112-151): 401 when the
`Authorization` header is absent or not `Bearer ...` or the session token does
not verify; 404 when the subject matches no user row; otherwise a brand-new
session token minted at the time of this request. -/
def refresh_token_route (st : AppSettings) (db : Db) (hdr : AuthHeader) (now : Nat) :
    RouteResult LoginResponseBody :=
  match hdr with
  | .missing => .httpError 401 "Missing or invalid authorization header"
  | .notBearer _ => .httpError 401 "Missing or invalid authorization header"
  | .bearer tok =>
    match verify_jwt_token st now tok with
    | none => .httpError 401 "Invalid or expired token"
    | some payload =>
      match get_user_by_id db payload.sub with
      | none => .httpError 404 "User not found"
      | some user =>
          .ok { access_token := create_jwt_token st user now,
                token_type := "bearer",
                user := userResponseOf user }

/-- Body of the `/status` response.  `user_id = none` models the response dict
without the `user_id` key; `some s` models the key present with value
`payload["sub"]`. -/
structure StatusResponse where
  authenticated : Bool
  brightspace_connected : Bool
  user_id : Option (Option String)
deriving Repr, DecidableEq

/-- Endpoint `auth_status` (`app/api/auth.py` lines 202-228): absent/malformed
header or a non-verifying token yield `authenticated=false` (no error);
otherwise `brightspace_connected` reports whether `get_valid_brightspace_token`
produced a token for the subject (possibly after a transparent refresh, whose
outcome is the `providerResp` oracle). -/
def auth_status (st : AppSettings) (db : Db) (hdr : AuthHeader) (now : Nat)
    (providerResp : Option TokenData) : StatusResponse × Db :=
  match hdr with
  | .missing => (⟨false, false, none⟩, db)
  | .notBearer _ => (⟨false, false, none⟩, db)
  | .bearer tok =>
    match verify_jwt_token st now tok with
    | none => (⟨false, false, none⟩, db)
    | some payload =>
      let r := get_valid_brightspace_token db payload.sub now providerResp
      (⟨true, r.1.isSome, some payload.sub⟩, r.2.1)

/-! ### Authorization URL generation (`auth_service.py` lines 35-55) -/

/-- The URL-safe base64 alphabet used by `secrets.token_urlsafe`. -/
def b64urlAlphabet : List Char :=
  "ABCDEFGHIJKLMNOPQRSTUVWXYZabcdefghijklmnopqrstuvwxyz0123456789-_".toList

/-- The alphabet character at index `n % 64`. -/
def b64Char (n : Nat) : Char := b64urlAlphabet.getD (n % 64) 'A'

/-- Unpadded URL-safe base64 of a byte sequence. -/
def base64urlEncode : List Nat → List Char
  | [] => []
  | [b1] => [b64Char (b1 / 4), b64Char (b1 % 4 * 16)]
  | [b1, b2] => [b64Char (b1 / 4), b64Char (b1 % 4 * 16 + b2 / 16), b64Char (b2 % 16 * 4)]
  | b1 :: b2 :: b3 :: rest =>
      b64Char (b1 / 4) :: b64Char (b1 % 4 * 16 + b2 / 16) ::
        b64Char (b2 % 16 * 4 + b3 / 64) :: b64Char (b3 % 64) :: base64urlEncode rest

/-- Model of `secrets.token_urlsafe(32)`: URL-safe base64 (no padding) of the bytes
drawn from `os.urandom(32)`; the byte sequence is passed as a parameter. -/
def token_urlsafe (randomBytes : List Nat) : String :=
  String.mk (base64urlEncode randomBytes)

/-- Upper-case hexadecimal digit. -/
def hexDigit (n : Nat) : Char := "0123456789ABCDEF".toList.getD (n % 16) '0'

/-- Model of `urllib.parse.quote_plus` on one ASCII character: alphanumerics and
`_.-~` pass through, space becomes `+`, anything else is percent-encoded. -/
def quote_plus_char (c : Char) : List Char :=
  if c.isAlphanum ∨ c = '_' ∨ c = '.' ∨ c = '-' ∨ c = '~' then [c]
  else if c = ' ' then ['+']
  else ['%', hexDigit (c.toNat / 16), hexDigit (c.toNat % 16)]

/-- Model of `urllib.parse.quote_plus` on a string. -/
def quote_plus (s : String) : String :=
  String.mk (s.toList.map quote_plus_char).flatten

/-- Model of `urllib.parse.urlencode`: `k=v` pairs joined with `&`, both sides
quote-plus-encoded. -/
def urlencode (ps : List (String × String)) : String :=
  String.intercalate "&" (ps.map (fun p => quote_plus p.1 ++ "=" ++ quote_plus p.2))

/-- From `AuthService.__init__`: the authorization endpoint, derived from the API
base URL with `/api` removed (`str.replace` removes every occurrence). -/
def authUrlBase (st : AppSettings) : String :=
  st.apiUrl.replace "/api" "" ++ "/oauth2/auth"

/-- The query parameters assembled by `generate_auth_url`, in source order. -/
def auth_url_params (st : AppSettings) (state : String) : List (String × String) :=
  [("response_type", "code"),
   ("client_id", st.clientId),
   ("redirect_uri", st.redirectUri),
   ("scope", st.oauthScope),
   ("state", state),
   ("access_type", "offline")]

/-- Model of `AuthService.generate_auth_url` (`auth_service.py` lines 35-55): a fresh
URL-safe state from 32 random bytes and the authorization URL carrying exactly
the six parameters of `auth_url_params`.  The function reads only
configuration and the random bytes; it mutates nothing. -/
def generate_auth_url (st : AppSettings) (randomBytes : List Nat) : String × String :=
  let state := token_urlsafe randomBytes
  (authUrlBase st ++ "?" ++ urlencode (auth_url_params st state), state)

/-! ### Concrete fixtures used to evaluate the model -/

/-- A `whoami` response for a fresh provider identity. -/
def exInfo : WhoAmI :=
  { identifier := some "42", emailAddress := some "a@b.c", firstName := "Ada", lastName := "L" }

/-- A token-endpoint response with a refresh token and a one-hour expiry. -/
def exTd : TokenData :=
  { access_token := "at1", refresh_token := some "rt1", token_type := some "Bearer",
    scope := none, expires_in := some 3600 }

/-- An empty store: no users, no provider tokens. -/
def emptyDb : Db := { users := [], tokens := [] }

/-- A committed user row for provider identity `42`. -/
def u0 : UserRow :=
  { id := some "u-1", email := some "a@b.c", full_name := "Ada L",
    brightspace_user_id := some "42", is_verified := true, last_login_at := some 50 }

/-- A committed provider-token row for `u0`, expiring at time 90. -/
def t0 : TokenRow :=
  { id := some "t-1", user_id := some "u-1", access_token := "oldat",
    refresh_token := some "rt1", token_type := "Bearer", scope := none,
    expires_at := some 90, updated_at := some 50 }

/-- A store holding exactly `u0` and `t0`. -/
def db0 : Db := { users := [u0], tokens := [t0] }

/-- Concrete session claims expiring at time 5. -/
def cEx : SessionClaims :=
  { sub := some "u-1", email := some "a@b.c", brightspace_user_id := some "42",
    exp := 5, iat := 1 }

/-- A provider-token row like `t0` but with no refresh token. -/
def t1 : TokenRow := { t0 with refresh_token := none }

/-- A store holding `u0` and the refresh-less token row `t1`. -/
def db1 : Db := { users := [u0], tokens := [t1] }

/-- The in-place update `_save_brightspace_tokens` applies to an existing
token row (named here so proofs can speak about it). -/
def refreshUpd (td : TokenData) (now : Nat) : TokenRow → TokenRow := fun r =>
  { r with
    access_token := td.access_token,
    refresh_token := td.refresh_token,
    token_type := td.token_type.getD "Bearer",
    scope := td.scope,
    expires_at := td.expires_in.map (fun s => now + s),
    updated_at := some now }

/-! ### Helper lemmas -/

/-- Updating the first match preserves the number of rows. -/
theorem updateFirst_length (p : α → Bool) (f : α → α) (l : List α) :
    (updateFirst p f l).length = l.length := by
  induction l with
  | nil => rfl
  | cons x xs ih =>
      by_cases h : p x
      · simp [updateFirst, h]
      · simp [updateFirst, h, ih]

/-- After updating the first match, the first match is the updated row,
provided the update preserves the predicate. -/
theorem find?_updateFirst (p : α → Bool) (f : α → α) (l : List α) (x : α)
    (h : l.find? p = some x) (hf : p (f x) = true) :
    (updateFirst p f l).find? p = some (f x) := by
  induction l with
  | nil => simp at h
  | cons y ys ih =>
      by_cases hy : p y
      · rw [List.find?_cons_of_pos _ hy] at h
        injection h with h
        subst h
        simp [updateFirst, hy, List.find?_cons_of_pos _ hf]
      · rw [List.find?_cons_of_neg _ hy] at h
        simp only [updateFirst]
        rw [if_neg hy, List.find?_cons_of_neg _ hy]
        exact ih h

/-- Every character produced by `b64Char` lies in the URL-safe alphabet. -/
theorem b64Char_mem (n : Nat) : b64Char n ∈ b64urlAlphabet := by
  have hall : ∀ m < 64, b64urlAlphabet.getD m 'A' ∈ b64urlAlphabet := by decide
  exact hall (n % 64) (Nat.mod_lt _ (by decide))

/-- Every character of a base64url encoding lies in the URL-safe alphabet. -/
theorem base64urlEncode_mem (bs : List Nat) :
    ∀ c ∈ base64urlEncode bs, c ∈ b64urlAlphabet := by
  induction bs using base64urlEncode.induct with
  | case1 => simp [base64urlEncode]
  | case2 b1 =>
      intro c hc
      simp only [base64urlEncode, List.mem_cons, List.not_mem_nil, or_false] at hc
      rcases hc with h | h <;> (subst h; exact b64Char_mem _)
  | case3 b1 b2 =>
      intro c hc
      simp only [base64urlEncode, List.mem_cons, List.not_mem_nil, or_false] at hc
      rcases hc with h | h | h <;> (subst h; exact b64Char_mem _)
  | case4 b1 b2 b3 rest ih =>
      intro c hc
      simp only [base64urlEncode, List.mem_cons] at hc
      rcases hc with h | h | h | h | h
      · subst h; exact b64Char_mem _
      · subst h; exact b64Char_mem _
      · subst h; exact b64Char_mem _
      · subst h; exact b64Char_mem _
      · exact ih c h

/-! ### Claim theorems -/

/-- C1.  The claim says a first-time successful login creates one `User` row
and one `BrightspaceToken` row whose `user_id` equals the new user's id,
committed together.  The code instead reads `user.id` before any flush, when
the Python-side `uuid4` default has not fired, so the token row is built with
`user_id = None`: the pending session holds a token row whose `user_id` is
`none`, and the commit violates the NOT NULL constraint on
`brightspace_tokens.user_id` and fails with `IntegrityError` — no user/token
pair is ever committed for a first-time login. -/
theorem C1_first_login_token_row_has_no_user_id :
    (create_or_update_user_session emptyDb exInfo exTd 100).tokens.map
        (fun t => t.user_id) = [none]
  ∧ create_or_update_user emptyDb exInfo exTd 100 "u-1" "t-1" = .error .integrityError := by
  exact ⟨rfl, rfl⟩

/-- C2.  The claim says a callback with an unissued (or consumed) state yields
a redirect carrying `error=invalid_state` and never reaches the code exchange.
The exchange is indeed never invoked, but the endpoint does not produce the
redirect: `app/api/auth.py` never imports `settings`, so building the redirect
URL raises `NameError` and the request ends as an HTTP 500. -/
theorem C2_unissued_state_raises_nameerror :
    brightspace_callback defaultSettings
        { code := some "authcode", state := some "evil", error := none }
        ["good"] db0 (some exTd) (some exInfo) 100 "u-9" "t-9"
      = { response := .exn "NameError", states := ["good"], db := db0,
          exchangeCalled := false } := by
  rfl

/-- C3.  When the stored provider token is not expired (no expiry recorded, or
expiry strictly in the future), `get_valid_brightspace_token` returns the
stored access token unchanged, performs zero refresh calls whatever the
provider would have answered, and leaves the store untouched. -/
theorem C3_unexpired_token_returned_without_refresh (db : Db) (uid : Option String)
    (now : Nat) (t : TokenRow)
    (hfind : db.tokens.find? (fun r => r.user_id = uid) = some t)
    (hexp : is_expired t now = false) :
    ∀ providerResp : Option TokenData,
      get_valid_brightspace_token db uid now providerResp = (some t.access_token, db, 0) := by
  intro pr
  simp [get_valid_brightspace_token, hfind, hexp]

/-- Witness for C3 on the concrete store `db0` at time 80 (token expires at
90, so it is still valid). -/
theorem C3_witness :
    get_valid_brightspace_token db0 (some "u-1") 80 none = (some "oldat", db0, 0) := by
  exact C3_unexpired_token_returned_without_refresh db0 (some "u-1") 80 t0 rfl rfl none

/-- C4.  A session token verifies exactly when its signature was produced with
the server secret over its own payload and its expiry is strictly in the
future; a successful verification can only return the token's own claims;
every failure — malformed encoding, wrong signature, altered payload — yields
the one undifferentiated `none`; and any mutation of a valid token (changing
the signature part, changing the payload part, or breaking the encoding)
makes verification fail. -/
theorem C4_session_token_verification (st : AppSettings) (now : Nat)
    (c : SessionClaims) (sig : JwtSig) :
    (verify_jwt_token st now (.signed c sig) = some c
        ↔ sig = hmacSign st.jwtSecret c ∧ now < c.exp)
  ∧ (∀ c', verify_jwt_token st now (.signed c sig) = some c' → c' = c)
  ∧ (∀ raw, verify_jwt_token st now (.malformed raw) = none)
  ∧ (verify_jwt_token st now (.signed c sig) = some c →
      (∀ sig', sig' ≠ sig → verify_jwt_token st now (.signed c sig') = none)
      ∧ (∀ c', c' ≠ c → verify_jwt_token st now (.signed c' sig) = none)) := by
  have hdec : ∀ (c₀ : SessionClaims) (s₀ : JwtSig),
      verify_jwt_token st now (.signed c₀ s₀)
        = if s₀ = hmacSign st.jwtSecret c₀ ∧ now < c₀.exp then some c₀ else none :=
    fun _ _ => rfl
  refine ⟨?_, ?_, fun raw => rfl, ?_⟩
  · rw [hdec]
    constructor
    · intro h
      by_cases hc : sig = hmacSign st.jwtSecret c ∧ now < c.exp
      · exact hc
      · rw [if_neg hc] at h; exact absurd h (by simp)
    · intro hc; rw [if_pos hc]
  · intro c' h
    rw [hdec] at h
    by_cases hc : sig = hmacSign st.jwtSecret c ∧ now < c.exp
    · rw [if_pos hc] at h; injection h with h; exact h.symm
    · rw [if_neg hc] at h; exact absurd h (by simp)
  · intro hvalid
    rw [hdec] at hvalid
    have hc : sig = hmacSign st.jwtSecret c ∧ now < c.exp := by
      by_cases hc : sig = hmacSign st.jwtSecret c ∧ now < c.exp
      · exact hc
      · rw [if_neg hc] at hvalid; exact absurd hvalid (by simp)
    constructor
    · intro sig' hne
      rw [hdec, if_neg]
      intro hcc
      exact hne (hcc.1.trans hc.1.symm)
    · intro c' hne
      rw [hdec, if_neg]
      intro hcc
      have : hmacSign st.jwtSecret c = hmacSign st.jwtSecret c' := hc.1.symm.trans hcc.1
      have : c = c' := congrArg JwtSig.signedPayload this
      exact hne this.symm

/-- Witness for C4 at time 3: the correctly signed token verifies, and the
same payload under a signature made with a different secret is rejected. -/
theorem C4_witness :
    verify_jwt_token defaultSettings 3 (.signed cEx (hmacSign "dev_secret_key" cEx)) = some cEx
  ∧ verify_jwt_token defaultSettings 3 (.signed cEx ⟨"other", cEx⟩) = none := by
  have h := C4_session_token_verification defaultSettings 3 cEx (hmacSign "dev_secret_key" cEx)
  have hv : verify_jwt_token defaultSettings 3
      (.signed cEx (hmacSign "dev_secret_key" cEx)) = some cEx :=
    h.1.mpr ⟨rfl, by decide⟩
  exact ⟨hv, (h.2.2.2 hv).1 ⟨"other", cEx⟩ (by decide)⟩

/-- C5.  When the stored token is expired and carries a refresh token and the
refresh exchange succeeds with a response carrying `expires_in = k > 0`, the
service makes exactly one refresh call, returns the new access token, writes
the response over the existing row (same number of rows, users untouched) and
the stored expiry advances to `now + k`, strictly past the old expiry. -/
theorem C5_expired_refresh_upserts_in_place (db : Db) (uid : String) (now : Nat)
    (t : TokenRow) (td : TokenData) (k : Nat)
    (hfind : db.tokens.find? (fun r => r.user_id = some uid) = some t)
    (hexp : is_expired t now = true)
    (hrt : t.refresh_token.isSome = true)
    (hin : td.expires_in = some k) (hk : 0 < k) :
    (get_valid_brightspace_token db (some uid) now (some td)).1 = some td.access_token
  ∧ (get_valid_brightspace_token db (some uid) now (some td)).2.2 = 1
  ∧ (get_valid_brightspace_token db (some uid) now (some td)).2.1.users = db.users
  ∧ (get_valid_brightspace_token db (some uid) now (some td)).2.1.tokens.length
      = db.tokens.length
  ∧ (get_valid_brightspace_token db (some uid) now (some td)).2.1.tokens.find?
        (fun r => r.user_id = some uid)
      = some { t with
          access_token := td.access_token,
          refresh_token := td.refresh_token,
          token_type := td.token_type.getD "Bearer",
          scope := td.scope,
          expires_at := some (now + k),
          updated_at := some now }
  ∧ (∀ e, t.expires_at = some e → e < now + k) := by
  have hred : get_valid_brightspace_token db (some uid) now (some td)
      = (some td.access_token, save_brightspace_tokens db (some uid) td now, 1) := by
    simp [get_valid_brightspace_token, hfind, hexp, hrt, refresh_access_token]
  have hsave : save_brightspace_tokens db (some uid) td now
      = { db with tokens := updateFirst (fun r => r.user_id = some uid) (refreshUpd td now) db.tokens } := by
    simp only [save_brightspace_tokens, hfind]
    rfl
  refine ⟨by rw [hred], by rw [hred], by rw [hred, hsave], ?_, ?_, ?_⟩
  · rw [hred, hsave]
    exact updateFirst_length _ _ _
  · rw [hred, hsave]
    have hupd := find?_updateFirst (fun r : TokenRow => r.user_id = some uid)
      (refreshUpd td now) db.tokens t hfind (by simpa [refreshUpd] using List.find?_some hfind)
    rw [hupd]
    simp [refreshUpd, hin]
  · intro e he
    unfold is_expired at hexp
    rw [he] at hexp
    have : e ≤ now := by simpa using hexp
    omega

/-- Witness for C5: the store `db0` at time 100 (token expired at 90), with
the refresh exchange answering `exTd`. -/
theorem C5_witness :
    (get_valid_brightspace_token db0 (some "u-1") 100 (some exTd)).1 = some exTd.access_token
  ∧ (get_valid_brightspace_token db0 (some "u-1") 100 (some exTd)).2.2 = 1
  ∧ (get_valid_brightspace_token db0 (some "u-1") 100 (some exTd)).2.1.tokens.length
      = db0.tokens.length := by
  have h := C5_expired_refresh_upserts_in_place db0 "u-1" 100 t0 exTd 3600
    rfl rfl rfl rfl (by decide)
  exact ⟨h.1, h.2.1, h.2.2.2.1⟩

/-- C6.  `get_valid_brightspace_token` returns `none`, and raises nothing, in
every "not connected" case: no token row for the user; an expired token with
no refresh token; and an expired token whose refresh exchange fails (the
`AuthenticationError` is swallowed, turning into the `none` outcome after the
single refresh attempt). -/
theorem C6_disconnected_cases_yield_none (db : Db) (uid : Option String) (now : Nat) :
    (db.tokens.find? (fun r => r.user_id = uid) = none →
      ∀ pr, get_valid_brightspace_token db uid now pr = (none, db, 0))
  ∧ (∀ t, db.tokens.find? (fun r => r.user_id = uid) = some t →
      is_expired t now = true → t.refresh_token = none →
      ∀ pr, get_valid_brightspace_token db uid now pr = (none, db, 0))
  ∧ (∀ t, db.tokens.find? (fun r => r.user_id = uid) = some t →
      is_expired t now = true → t.refresh_token.isSome = true →
      get_valid_brightspace_token db uid now none = (none, db, 1)) := by
  refine ⟨?_, ?_, ?_⟩
  · intro h pr
    simp [get_valid_brightspace_token, h]
  · intro t h hexp hrt pr
    simp [get_valid_brightspace_token, h, hexp, hrt]
  · intro t h hexp hrt
    simp [get_valid_brightspace_token, h, hexp, hrt, refresh_access_token]

/-- Witness for C6: no row (`emptyDb`), expired with no refresh token
(`db1` at time 100), and expired with a failing refresh (`db0`, oracle
`none`). -/
theorem C6_witness :
    get_valid_brightspace_token emptyDb (some "u-1") 100 none = (none, emptyDb, 0)
  ∧ get_valid_brightspace_token db1 (some "u-1") 100 none = (none, db1, 0)
  ∧ get_valid_brightspace_token db0 (some "u-1") 100 none = (none, db0, 1) := by
  refine ⟨(C6_disconnected_cases_yield_none emptyDb (some "u-1") 100).1 rfl none,
    (C6_disconnected_cases_yield_none db1 (some "u-1") 100).2.1 t1 rfl rfl rfl none,
    (C6_disconnected_cases_yield_none db0 (some "u-1") 100).2.2 t0 rfl rfl rfl⟩

/-- C7.  `generate_auth_url` returns a pair `(authorizationUrl, state)` in
which the state is the URL-safe base64 encoding of the 32 random bytes
(32 bytes = 256 bits of entropy; every character of the encoding is in the
URL-safe alphabet), and the URL is the authorization base followed by the
URL-encoding of exactly the six query parameters `response_type=code`,
`client_id`, `redirect_uri`, `scope`, `state`, `access_type=offline` — the
function reads nothing but its arguments and mutates nothing. -/
theorem C7_begin_login_url_and_state (st : AppSettings) (bytes : List Nat)
    (hlen : bytes.length = 32) :
    (generate_auth_url st bytes).2 = token_urlsafe bytes
  ∧ 8 * bytes.length = 256
  ∧ (generate_auth_url st bytes).1
      = authUrlBase st ++ "?" ++ urlencode (auth_url_params st (token_urlsafe bytes))
  ∧ auth_url_params st (token_urlsafe bytes)
      = [("response_type", "code"), ("client_id", st.clientId),
         ("redirect_uri", st.redirectUri), ("scope", st.oauthScope),
         ("state", token_urlsafe bytes), ("access_type", "offline")]
  ∧ (∀ c ∈ base64urlEncode bytes, c ∈ b64urlAlphabet) := by
  exact ⟨rfl, by omega, rfl, rfl, base64urlEncode_mem bytes⟩

/-- Witness for C7 on the concrete byte sequence `0, 1, …, 31`. -/
theorem C7_witness :
    (generate_auth_url defaultSettings (List.range 32)).2 = token_urlsafe (List.range 32)
  ∧ 8 * (List.range 32).length = 256 := by
  have h := C7_begin_login_url_and_state defaultSettings (List.range 32) (by simp)
  exact ⟨h.1, h.2.1⟩

/-- C8.  The `/status` endpoint never produces an error response: a missing or
non-`Bearer` header, or a token that fails verification, yields
`authenticated = false, brightspace_connected = false` (and no user id); a
verifying token yields `authenticated = true`, the token's subject as user id,
and `brightspace_connected` exactly when `get_valid_brightspace_token`
produced a token for that subject. -/
theorem C8_status_never_errors (st : AppSettings) (db : Db) (now : Nat)
    (pr : Option TokenData) :
    ((auth_status st db .missing now pr).1
        = { authenticated := false, brightspace_connected := false, user_id := none })
  ∧ (∀ raw, (auth_status st db (.notBearer raw) now pr).1
        = { authenticated := false, brightspace_connected := false, user_id := none })
  ∧ (∀ tok, verify_jwt_token st now tok = none →
      (auth_status st db (.bearer tok) now pr).1
        = { authenticated := false, brightspace_connected := false, user_id := none })
  ∧ (∀ tok p, verify_jwt_token st now tok = some p →
      (auth_status st db (.bearer tok) now pr).1
        = { authenticated := true,
            brightspace_connected := (get_valid_brightspace_token db p.sub now pr).1.isSome,
            user_id := some p.sub }) := by
  refine ⟨rfl, fun raw => rfl, ?_, ?_⟩
  · intro tok h
    simp [auth_status, h]
  · intro tok p h
    simp [auth_status, h]

/-- Witness for C8: a request with no header, and one bearing a token minted
at time 3 and checked at time 5 against the store `db0` (token valid, so
connected). -/
theorem C8_witness :
    (auth_status defaultSettings db0 .missing 5 none).1
      = { authenticated := false, brightspace_connected := false, user_id := none }
  ∧ (auth_status defaultSettings db0 (.bearer (create_jwt_token defaultSettings u0 3)) 5 none).1
      = { authenticated := true, brightspace_connected := true,
          user_id := some (some "u-1") } := by
  have h := C8_status_never_errors defaultSettings db0 5 none
  refine ⟨h.1, ?_⟩
  have h4 := h.2.2.2 (create_jwt_token defaultSettings u0 3)
    { sub := some "u-1", email := some "a@b.c", brightspace_user_id := some "42",
      exp := 3 + 3600 * 24, iat := 3 } rfl
  exact h4.trans rfl

/-- C9.  For a callback that passes state validation, the registered state
survives every failure of the three subsequent steps — code exchange raising
`AuthenticationError`, identity fetch raising `AuthenticationError`, or the
user upsert raising — and is removed exactly when all three succeed; since the
state survives, a replayed callback with the same state passes validation and
reaches the code exchange again (for whatever oracles). -/
theorem C9_state_survives_failed_callback (st : AppSettings) (code state : String)
    (states : List String) (db : Db) (now : Nat) (fu ft : String)
    (hmem : state ∈ states) :
    (∀ who, (brightspace_callback st ⟨some code, some state, none⟩ states db
        none who now fu ft).states = states)
  ∧ (∀ td, (brightspace_callback st ⟨some code, some state, none⟩ states db
        (some td) none now fu ft).states = states)
  ∧ (∀ td info e, create_or_update_user db info td now fu ft = .error e →
      (brightspace_callback st ⟨some code, some state, none⟩ states db
        (some td) (some info) now fu ft).states = states)
  ∧ (∀ td info db' u, create_or_update_user db info td now fu ft = .ok (db', u) →
      (brightspace_callback st ⟨some code, some state, none⟩ states db
        (some td) (some info) now fu ft).states = states.erase state)
  ∧ (∀ ex who, (brightspace_callback st ⟨some code, some state, none⟩ states db
        ex who now fu ft).exchangeCalled = true) := by
  refine ⟨?_, ?_, ?_, ?_, ?_⟩
  · intro who
    simp [brightspace_callback, hmem]
  · intro td
    simp [brightspace_callback, hmem]
  · intro td info e hres
    simp [brightspace_callback, hmem, hres]
  · intro td info db' u hres
    simp [brightspace_callback, hmem, hres]
  · intro ex who
    cases ex with
    | none => simp [brightspace_callback, hmem]
    | some td =>
      cases who with
      | none => simp [brightspace_callback, hmem]
      | some info =>
        rcases hres : create_or_update_user db info td now fu ft with e | pair
        · simp [brightspace_callback, hmem, hres]
        · rcases pair with ⟨db', u⟩
          simp [brightspace_callback, hmem, hres]

/-- Witness for C9: exchange failure keeps the state `"good"` registered; a
first-login upsert failure keeps it too; a fully successful callback (existing
user in `db0`) erases it. -/
theorem C9_witness :
    (brightspace_callback defaultSettings ⟨some "c", some "good", none⟩ ["good"] db0
        none none 100 "u-9" "t-9").states = ["good"]
  ∧ (brightspace_callback defaultSettings ⟨some "c", some "good", none⟩ ["good"] emptyDb
        (some exTd) (some exInfo) 100 "u-9" "t-9").states = ["good"]
  ∧ (brightspace_callback defaultSettings ⟨some "c", some "good", none⟩ ["good"] db0
        (some exTd) (some exInfo) 100 "u-9" "t-9").states = List.erase ["good"] "good" := by
  have h := C9_state_survives_failed_callback defaultSettings "c" "good" ["good"] db0
    100 "u-9" "t-9" (by simp)
  have h2 := C9_state_survives_failed_callback defaultSettings "c" "good" ["good"] emptyDb
    100 "u-9" "t-9" (by simp)
  exact ⟨h.1 none, h2.2.2.1 exTd exInfo .integrityError rfl, h.2.2.2.1 exTd exInfo _ _ rfl⟩

/-- C10.  A `/token/refresh` request whose bearer token verifies and whose
subject matches an existing user receives a brand-new session token whose
expiry is `now` plus the full configured lifetime — independent of how close
the presented token's own expiry was — so sessions can be renewed indefinitely
without contacting the provider. -/
theorem C10_refresh_issues_full_lifetime_token (st : AppSettings) (db : Db) (tok : Jwt)
    (now : Nat) (p : SessionClaims) (u : UserRow)
    (hv : verify_jwt_token st now tok = some p)
    (hu : get_user_by_id db p.sub = some u) :
    refresh_token_route st db (.bearer tok) now
      = .ok { access_token := create_jwt_token st u now,
              token_type := "bearer", user := userResponseOf u }
  ∧ jwtPayload (create_jwt_token st u now)
      = some { sub := u.id, email := u.email,
               brightspace_user_id := u.brightspace_user_id,
               exp := now + 3600 * st.jwtExpirationHours, iat := now } := by
  constructor
  · simp [refresh_token_route, hv, hu]
  · rfl

/-- Witness for C10: a token minted at time 3 (expiry 3 + 86400), presented at
time 5, is exchanged for a token minted at time 5 (expiry 5 + 86400). -/
theorem C10_witness :
    refresh_token_route defaultSettings db0 (.bearer (create_jwt_token defaultSettings u0 3)) 5
      = .ok { access_token := create_jwt_token defaultSettings u0 5,
              token_type := "bearer", user := userResponseOf u0 } := by
  have h := C10_refresh_issues_full_lifetime_token defaultSettings db0
    (create_jwt_token defaultSettings u0 3) 5
    { sub := some "u-1", email := some "a@b.c", brightspace_user_id := some "42",
      exp := 3 + 3600 * 24, iat := 3 } u0 rfl rfl
  exact h.1

end BrightspaceGPT
